import Mathlib

/-!
Shallow embedding of the booking backend's core routes
(src/routes/bookings.js, src/routes/playgrounds.js) over an explicit
in-memory database state.  Times are minutes-of-day (the source stores
zero-padded "HH:MM" varchar(5) values, whose lexicographic SQL ordering
coincides with the numeric ordering modelled here).  Dates are abstract
naturals.  SQL `UPDATE ... WHERE id = ?` statements become `List.map`
over the corresponding table; `SELECT ... WHERE` becomes `List.find?` /
`List.filter` with the literal predicate of the query.
-/

inductive BookingStatus where
  | pending
  | confirmed
  | cancelled
deriving DecidableEq, Repr

/-- Row of the `bookings` table (schema dump in the repository). -/
structure Booking where
  id : Nat
  playgroundId : Nat
  userId : Nat
  date : Nat
  timeStart : Nat
  timeEnd : Nat
  status : BookingStatus
  rated : Bool
  rating : Option Int
deriving DecidableEq, Repr

/-- Row of the `playgrounds` table.  `isActive` is the boolean flag the
report route writes (`UPDATE playgrounds SET isActive = FALSE`). -/
structure Playground where
  id : Nat
  userId : Nat
  rating : Rat
  reports : Nat
  isActive : Bool
deriving DecidableEq, Repr

/-- Row of the `playground_reports` table. -/
structure Report where
  playgroundId : Nat
  userId : Nat
  reason : String
deriving DecidableEq, Repr

/-- The persistent state the routes read and write. -/
structure Db where
  playgrounds : List Playground
  bookings : List Booking
  reports : List Report
  nextBookingId : Nat
deriving DecidableEq, Repr

/-- The distinct error kinds surfaced by the routes (HTTP 400/403/404
responses, plus the 500 path when a storage statement itself fails,
e.g. a foreign-key violation on INSERT). -/
inductive ApiError where
  | validationError
  | selfBookingNotAllowed
  | slotConflict
  | notFound
  | unauthorized
  | invalidState
  | duplicateReport
  | storageError
deriving DecidableEq, Repr

/-- Request body of `POST /api/bookings`; a `none` field models a field
that is absent (falsy) in `req.body`. -/
structure BookingBody where
  playgroundId : Option Nat
  date : Option Nat
  timeStart : Option Nat
  timeEnd : Option Nat
deriving DecidableEq, Repr

/-- `SELECT ... FROM playgrounds WHERE id = ?` (first row). -/
def findPlayground (db : Db) (pid : Nat) : Option Playground :=
  db.playgrounds.find? (fun p => p.id == pid)

/-- The three-clause time disjunction of the conflict query in
`POST /api/bookings`, with `aS, aE` the stored row's `timeStart, timeEnd`
and `bS, bE` the requested times, bound in the source's parameter order:
`(timeStart < ? AND timeEnd > ?)` with `[timeEnd, timeStart]`,
`(timeStart < ? AND timeEnd > ?)` with `[timeEnd, timeEnd]`,
`(timeStart >= ? AND timeEnd <= ?)` with `[timeStart, timeEnd]`. -/
def threeClauseConflict (aS aE bS bE : Nat) : Bool :=
  (decide (aS < bE) && decide (aE > bS)) ||
  (decide (aS < bE) && decide (aE > bE)) ||
  (decide (aS ≥ bS) && decide (aE ≤ bE))

/-- Spec §4.1's single half-open intersection test:
`a.start < b.end AND b.start < a.end`. -/
def overlaps (aS aE bS bE : Nat) : Bool :=
  decide (aS < bE) && decide (bS < aE)

/-- The full WHERE clause of the conflict query:
`playgroundId = ? AND date = ? AND status != 'cancelled' AND (...)`. -/
def sqlConflictPred (pid date bS bE : Nat) (b : Booking) : Bool :=
  b.playgroundId == pid && b.date == date &&
  !(b.status == BookingStatus.cancelled) &&
  threeClauseConflict b.timeStart b.timeEnd bS bE

/-- The booking row INSERT builds (status defaults to `pending`,
`rated` to false, `rating` to NULL). -/
def mkBooking (bid pid uid date tS tE : Nat) : Booking :=
  { id := bid, playgroundId := pid, userId := uid, date := date,
    timeStart := tS, timeEnd := tE, status := BookingStatus.pending,
    rated := false, rating := none }

/-- Conflict check followed by the INSERT, shared tail of
`POST /api/bookings` after the field and self-booking checks.  The
INSERT carries the foreign key `bookings_ibfk_1` on `playgroundId`, so
inserting against an absent playground fails the statement (HTTP 500). -/
def conflictCheckAndInsert (db : Db) (uid pid date tS tE : Nat) :
    Except ApiError (Db × Booking) :=
  if 0 < (db.bookings.filter (sqlConflictPred pid date tS tE)).length then
    Except.error ApiError.slotConflict
  else
    match findPlayground db pid with
    | none => Except.error ApiError.storageError
    | some _ =>
      let nb := mkBooking db.nextBookingId pid uid date tS tE
      Except.ok ({ db with bookings := db.bookings ++ [nb],
                           nextBookingId := db.nextBookingId + 1 }, nb)

/-- `POST /api/bookings`: reject missing fields, reject self-booking
when the playground exists and is owned by the caller, then check for
conflicts and insert. -/
def requestBooking (db : Db) (uid : Nat) (body : BookingBody) :
    Except ApiError (Db × Booking) :=
  match body.playgroundId, body.date, body.timeStart, body.timeEnd with
  | some pid, some date, some tS, some tE =>
    match findPlayground db pid with
    | some p =>
      if p.userId == uid then Except.error ApiError.selfBookingNotAllowed
      else conflictCheckAndInsert db uid pid date tS tE
    | none => conflictCheckAndInsert db uid pid date tS tE
  | _, _, _, _ => Except.error ApiError.validationError

/-- `UPDATE bookings SET status = ? WHERE id = ?`. -/
def setStatus (bs : List Booking) (bid : Nat) (st : BookingStatus) :
    List Booking :=
  bs.map (fun b => if b.id == bid then { b with status := st } else b)

/-- `PATCH /api/bookings/:id/cancel`: the lookup joins on
`id = ? AND userId = ?`, so an existing booking of another requester is
indistinguishable from an absent one (404); only `pending` may cancel. -/
def cancelBooking (db : Db) (uid bid : Nat) : Except ApiError Db :=
  match db.bookings.find? (fun b => b.id == bid && b.userId == uid) with
  | none => Except.error ApiError.notFound
  | some b =>
    if b.status == BookingStatus.pending then
      Except.ok { db with bookings := setStatus db.bookings bid BookingStatus.cancelled }
    else Except.error ApiError.invalidState

/-- `PATCH /api/bookings/:id/confirm`: the JOIN with `playgrounds`
yields no row when either the booking or its playground is absent, and
the single guard `booking.length === 0 || ownerId !== req.userId`
answers 403 in every failing case; no guard on the current status. -/
def confirmBooking (db : Db) (uid bid : Nat) : Except ApiError Db :=
  match db.bookings.find? (fun b => b.id == bid) with
  | none => Except.error ApiError.unauthorized
  | some b =>
    match findPlayground db b.playgroundId with
    | none => Except.error ApiError.unauthorized
    | some p =>
      if p.userId == uid then
        Except.ok { db with bookings := setStatus db.bookings bid BookingStatus.confirmed }
      else Except.error ApiError.unauthorized

/-- `UPDATE bookings SET rated = TRUE, rating = ? WHERE id = ?`. -/
def setBookingRating (bs : List Booking) (bid : Nat) (r : Int) :
    List Booking :=
  bs.map (fun b =>
    if b.id == bid then { b with rated := true, rating := some r } else b)

/-- The rating values selected by
`SELECT AVG(rating) FROM bookings
 WHERE playgroundId = ? AND rated = TRUE AND rating IS NOT NULL`. -/
def ratedRatings (bs : List Booking) (pid : Nat) : List Int :=
  (bs.filter (fun b => b.playgroundId == pid && b.rated && b.rating.isSome)).filterMap
    (fun b => b.rating)

/-- `AVG(rating)` with the route's `|| 0` default: NULL (no selected
row) becomes 0. -/
def avgRating (bs : List Booking) (pid : Nat) : Rat :=
  let rs := ratedRatings bs pid
  if rs.length = 0 then 0
  else ((rs.foldl (fun a x => a + x) 0 : Int) : Rat) / (rs.length : Rat)

/-- `UPDATE playgrounds SET rating = ? WHERE id = ?`. -/
def setPlaygroundRating (ps : List Playground) (pid : Nat) (r : Rat) :
    List Playground :=
  ps.map (fun p => if p.id == pid then { p with rating := r } else p)

/-- `PATCH /api/bookings/:id/rating`: write the rating of the booking
named by the body's `bookingId` FIRST, then recompute and store the
average of the playground named by the URL's `:id`.  No check relates
the two, and no precondition is checked at all. -/
def bookingsRatingRoute (db : Db) (urlId bid : Nat) (r : Int) : Db :=
  let bookings1 := setBookingRating db.bookings bid r
  let avg := avgRating bookings1 urlId
  { db with bookings := bookings1,
            playgrounds := setPlaygroundRating db.playgrounds urlId avg }

/-- `PATCH /api/playgrounds/:id/rating`: recompute the average over the
CURRENT bookings first, store it on the playground, and only then write
the booking's new rating. -/
def playgroundsRatingRoute (db : Db) (urlId bid : Nat) (r : Int) : Db :=
  let avg := avgRating db.bookings urlId
  { db with playgrounds := setPlaygroundRating db.playgrounds urlId avg,
            bookings := setBookingRating db.bookings bid r }

/-- `POST /api/playgrounds/:id/report`: duplicate check on
`(playgroundId, userId)`, INSERT the report (foreign key
`playground_reports_ibfk_1` fails the statement when the playground is
absent), increment `reports`, re-read it, and deactivate when the
post-increment count is at least 5. -/
def reportPlayground (db : Db) (uid pid : Nat) (reason : String) :
    Except ApiError Db :=
  if db.reports.any (fun r => r.playgroundId == pid && r.userId == uid) then
    Except.error ApiError.duplicateReport
  else
    match findPlayground db pid with
    | none => Except.error ApiError.storageError
    | some _ =>
      let reports1 := db.reports ++ [{ playgroundId := pid, userId := uid, reason := reason }]
      let ps1 := db.playgrounds.map
        (fun p => if p.id == pid then { p with reports := p.reports + 1 } else p)
      match ps1.find? (fun p => p.id == pid) with
      | none => Except.error ApiError.storageError
      | some p1 =>
        let ps2 :=
          if 5 ≤ p1.reports then
            ps1.map (fun q => if q.id == pid then { q with isActive := false } else q)
          else ps1
        Except.ok { db with reports := reports1, playgrounds := ps2 }

/-- The state after a fallible route: an error response leaves the
database untouched (every route errors before its first write). -/
def dbAfter (r : Except ApiError Db) (db : Db) : Db :=
  match r with
  | Except.ok db2 => db2
  | Except.error _ => db

/-- Same for `requestBooking`, which also returns the created row. -/
def dbAfterReq (r : Except ApiError (Db × Booking)) (db : Db) : Db :=
  match r with
  | Except.ok x => x.1
  | Except.error _ => db

/-- Spec §3: statuses enter at `pending` and move only along the edges
the code actually implements (`t = s` covers the no-op updates). -/
def statusStep (s t : BookingStatus) : Prop :=
  t = s ∨
  (s = BookingStatus.pending ∧
    (t = BookingStatus.confirmed ∨ t = BookingStatus.cancelled)) ∨
  (s = BookingStatus.cancelled ∧ t = BookingStatus.confirmed)

/-- Every booking after the operation either evolved from a booking of
the same id by a legal `statusStep`, or is a fresh `pending` row. -/
def bookingsStepOk (db db2 : Db) : Prop :=
  ∀ b2 ∈ db2.bookings,
    (∃ b ∈ db.bookings, b.id = b2.id ∧ statusStep b.status b2.status) ∨
    b2.status = BookingStatus.pending

/-- A booking that is `confirmed` before the operation is still
`confirmed` after it. -/
def confirmedStable (db db2 : Db) : Prop :=
  ∀ b ∈ db.bookings, b.status = BookingStatus.confirmed →
    ∀ b2 ∈ db2.bookings, b2.id = b.id → b2.status = BookingStatus.confirmed

/-- No playground is active after the operation unless a playground of
the same id was already active before it. -/
def preservesInactive (db db2 : Db) : Prop :=
  ∀ q ∈ db2.playgrounds, q.isActive = true →
    ∃ p ∈ db.playgrounds, p.id = q.id ∧ p.isActive = true

/-- An active playground owned by user 10. -/
def pgA : Playground :=
  { id := 1, userId := 10, rating := 0, reports := 0, isActive := true }

/-- A second playground, owned by user 11, with a stored rating of 3. -/
def pgB : Playground :=
  { id := 2, userId := 11, rating := 3, reports := 0, isActive := true }

/-- Request for 09:00-10:00 on playground 1, date 7 (times are HHMM). -/
def rqC1 : BookingBody :=
  { playgroundId := some 1, date := some 7, timeStart := some 900, timeEnd := some 1000 }

/-- State with one pending 09:30-10:30 booking on playground 1. -/
def dbC1a : Db := { playgrounds := [pgA], bookings := [mkBooking 1 1 3 7 930 1030], reports := [], nextBookingId := 2 }

/-- State with one pending 10:00-11:00 booking on playground 1. -/
def dbC1b : Db := { playgrounds := [pgA], bookings := [mkBooking 1 1 3 7 1000 1100], reports := [], nextBookingId := 2 }

/-- A deactivated playground owned by user 2. -/
def pgInactive : Playground :=
  { id := 1, userId := 2, rating := 0, reports := 0, isActive := false }

/-- State holding only the deactivated playground, no bookings. -/
def dbC3 : Db := { playgrounds := [pgInactive], bookings := [], reports := [], nextBookingId := 1 }

/-- Request on playground 1 whose start (10:00) is after its end (09:00). -/
def rqC3 : BookingBody :=
  { playgroundId := some 1, date := some 7, timeStart := some 1000, timeEnd := some 900 }

/-- State with a cancelled booking on playground 1 (owner 10). -/
def dbC4 : Db :=
  { playgrounds := [pgA],
    bookings := [{ mkBooking 1 1 3 7 900 1000 with status := BookingStatus.cancelled }],
    reports := [], nextBookingId := 2 }

/-- State with no booking at all. -/
def dbC5 : Db := { playgrounds := [pgA], bookings := [], reports := [], nextBookingId := 1 }

/-- State with a pending booking requested by user 3. -/
def dbC6 : Db := { playgrounds := [pgA], bookings := [mkBooking 1 1 3 7 900 1000], reports := [], nextBookingId := 2 }

/-- A booking already rated with 5. -/
def bkRated : Booking :=
  { mkBooking 1 1 5 7 900 1000 with rated := true, rating := some 5 }

/-- State with the already-rated booking. -/
def dbC7 : Db := { playgrounds := [pgA], bookings := [bkRated], reports := [], nextBookingId := 2 }

/-- State with one booking rated 5 and one unrated booking, both on
playground 1. -/
def dbC8 : Db :=
  { playgrounds := [pgA],
    bookings := [{ mkBooking 1 1 3 7 900 1000 with rated := true, rating := some 5 },
                 mkBooking 2 1 4 7 1000 1100],
    reports := [], nextBookingId := 3 }

/-- State where playground 1 has 4 reports and a prior report by user 20. -/
def dbC9 : Db :=
  { playgrounds := [{ pgA with reports := 4 }], bookings := [],
    reports := [{ playgroundId := 1, userId := 20, reason := "spam" }],
    nextBookingId := 1 }

/-- State where booking 1 belongs to playground 2, not playground 1. -/
def dbC10 : Db :=
  { playgrounds := [pgA, pgB], bookings := [mkBooking 1 2 3 7 900 1000],
    reports := [], nextBookingId := 2 }

/-! ### Helper lemmas -/

/-- Under well-formed intervals the three-clause disjunction of the
conflict query collapses to the single half-open test: the first clause
IS that test, and each of the other two clauses implies it. -/
theorem threeClause_eq_overlaps (aS aE bS bE : Nat) (ha : aS < aE) (hb : bS < bE) :
    threeClauseConflict aS aE bS bE = overlaps aS aE bS bE := by
  rw [Bool.eq_iff_iff]
  simp only [threeClauseConflict, overlaps, Bool.or_eq_true, Bool.and_eq_true,
    decide_eq_true_eq]
  omega

theorem length_filter_pos_iff {α : Type} (p : α → Bool) (l : List α) :
    0 < (l.filter p).length ↔ ∃ a ∈ l, p a = true := by
  rw [List.length_pos, Ne, List.filter_eq_nil_iff]
  push_neg
  simp

theorem eq_of_mem_nodup_ids {bs : List Booking}
    (hnd : (bs.map (fun b => b.id)).Nodup) {b c : Booking}
    (hb : b ∈ bs) (hc : c ∈ bs) (h : b.id = c.id) : b = c :=
  List.inj_on_of_nodup_map hnd hb hc h

theorem statusStep_refl (s : BookingStatus) : statusStep s s := Or.inl rfl

theorem statusStep_to_confirmed (s : BookingStatus) :
    statusStep s BookingStatus.confirmed := by
  cases s <;> simp [statusStep]

theorem bookingsStepOk_refl (db : Db) : bookingsStepOk db db :=
  fun b2 h2 => Or.inl ⟨b2, h2, rfl, statusStep_refl _⟩

theorem find?_booking_id_userId {bs : List Booking} {bid uid : Nat} {b : Booking}
    (h : bs.find? (fun c => c.id == bid && c.userId == uid) = some b) :
    b ∈ bs ∧ b.id = bid ∧ b.userId = uid := by
  have hm := List.mem_of_find?_eq_some h
  have hp := List.find?_some h
  simp only [Bool.and_eq_true, beq_iff_eq] at hp
  exact ⟨hm, hp.1, hp.2⟩

theorem find?_booking_id {bs : List Booking} {bid : Nat} {b : Booking}
    (h : bs.find? (fun c => c.id == bid) = some b) :
    b ∈ bs ∧ b.id = bid := by
  have hm := List.mem_of_find?_eq_some h
  have hp := List.find?_some h
  simp only [beq_iff_eq] at hp
  exact ⟨hm, hp⟩

theorem findPlayground_some {db : Db} {pid : Nat} {p : Playground}
    (h : findPlayground db pid = some p) : p ∈ db.playgrounds ∧ p.id = pid := by
  have hm := List.mem_of_find?_eq_some h
  have hp := List.find?_some h
  simp only [beq_iff_eq] at hp
  exact ⟨hm, hp⟩

/-- `find?` by id over an id-preserving per-row update commutes. -/
theorem find?_map_eqId (g : Playground → Playground)
    (hg : ∀ p, (g p).id = p.id) (ps : List Playground) (pid : Nat) :
    (ps.map g).find? (fun p => p.id == pid) =
      (ps.find? (fun p => p.id == pid)).map g := by
  induction ps with
  | nil => rfl
  | cons a t ih =>
    simp only [List.map_cons, List.find?, hg a]
    cases h : (a.id == pid) with
    | false => simpa [h] using ih
    | true => simp [h]

theorem preservesInactive_of_map (db : Db) (f : Playground → Playground)
    (hid : ∀ p, (f p).id = p.id)
    (hact : ∀ p, (f p).isActive = true → p.isActive = true)
    (db2 : Db) (h : db2.playgrounds = db.playgrounds.map f) :
    preservesInactive db db2 := by
  intro q hq hq'
  rw [h] at hq
  rcases List.mem_map.mp hq with ⟨p, hp, rfl⟩
  exact ⟨p, hp, (hid p).symm, hact _ hq'⟩

theorem preservesInactive_refl (db : Db) : preservesInactive db db :=
  fun q hq h => ⟨q, hq, rfl, h⟩

theorem preservesInactive_of_eq (db db2 : Db)
    (h : db2.playgrounds = db.playgrounds) : preservesInactive db db2 := by
  intro q hq hq'
  rw [h] at hq
  exact ⟨q, hq, rfl, hq'⟩

theorem conflictCheckAndInsert_ok {db : Db} {uid pid date tS tE : Nat}
    {db2 : Db} {nb : Booking}
    (h : conflictCheckAndInsert db uid pid date tS tE = Except.ok (db2, nb)) :
    db2 = { db with bookings := db.bookings ++ [nb],
                    nextBookingId := db.nextBookingId + 1 } ∧
    nb = mkBooking db.nextBookingId pid uid date tS tE := by
  unfold conflictCheckAndInsert at h
  split at h
  · exact absurd h (by simp)
  · split at h
    · exact absurd h (by simp)
    · simp only [Except.ok.injEq, Prod.mk.injEq] at h
      obtain ⟨h1, h2⟩ := h
      subst h2
      exact ⟨h1.symm, rfl⟩

theorem requestBooking_ok {db : Db} {uid : Nat} {body : BookingBody}
    {db2 : Db} {nb : Booking}
    (h : requestBooking db uid body = Except.ok (db2, nb)) :
    db2 = { db with bookings := db.bookings ++ [nb],
                    nextBookingId := db.nextBookingId + 1 } ∧
    nb.status = BookingStatus.pending ∧ nb.id = db.nextBookingId := by
  unfold requestBooking at h
  split at h
  · split at h
    · split at h
      · exact absurd h (by simp)
      · have := conflictCheckAndInsert_ok h
        exact ⟨this.1, by rw [this.2]; exact ⟨rfl, rfl⟩⟩
    · have := conflictCheckAndInsert_ok h
      exact ⟨this.1, by rw [this.2]; exact ⟨rfl, rfl⟩⟩
  · exact absurd h (by simp)

theorem cancelBooking_ok {db : Db} {uid bid : Nat} {db2 : Db}
    (h : cancelBooking db uid bid = Except.ok db2) :
    db2 = { db with bookings := setStatus db.bookings bid BookingStatus.cancelled } ∧
    ∃ b ∈ db.bookings, b.id = bid ∧ b.userId = uid ∧
      b.status = BookingStatus.pending := by
  unfold cancelBooking at h
  split at h
  · exact absurd h (by simp)
  · next b hfind =>
    split at h
    · next hst =>
      simp only [Except.ok.injEq] at h
      obtain ⟨hm, h1, h2⟩ := find?_booking_id_userId hfind
      exact ⟨h.symm, b, hm, h1, h2, by simpa using hst⟩
    · exact absurd h (by simp)

theorem confirmBooking_ok {db : Db} {uid bid : Nat} {db2 : Db}
    (h : confirmBooking db uid bid = Except.ok db2) :
    db2 = { db with bookings := setStatus db.bookings bid BookingStatus.confirmed } := by
  unfold confirmBooking at h
  split at h
  · exact absurd h (by simp)
  · split at h
    · exact absurd h (by simp)
    · split at h
      · simp only [Except.ok.injEq] at h
        exact h.symm
      · exact absurd h (by simp)

theorem reportPlayground_ok {db : Db} {uid pid : Nat} {reason : String}
    {db2 : Db} (h : reportPlayground db uid pid reason = Except.ok db2) :
    db2.bookings = db.bookings ∧
    ∃ f : Playground → Playground,
      db2.playgrounds = (db.playgrounds.map
        (fun p => if p.id == pid then { p with reports := p.reports + 1 } else p)).map f ∧
      (∀ p, (f p).id = p.id) ∧ (∀ p, (f p).isActive = true → p.isActive = true) := by
  unfold reportPlayground at h
  split at h
  · exact absurd h (by simp)
  · split at h
    · exact absurd h (by simp)
    · simp only [] at h
      split at h
      · exact absurd h (by simp)
      · split at h
        · simp only [Except.ok.injEq] at h
          subst h
          refine ⟨rfl, fun q => if q.id == pid then { q with isActive := false } else q, rfl,
            fun p => ?_, fun p => ?_⟩
          · by_cases hp : (p.id == pid) <;> simp [hp]
          · by_cases hp : (p.id == pid) <;> simp [hp]
        · simp only [Except.ok.injEq] at h
          subst h
          exact ⟨rfl, id, by simp, fun p => by simp, fun p h => h⟩

theorem requestBooking_reduce_some {db : Db} {uid pid date tS tE : Nat}
    {p : Playground} (hfp : findPlayground db pid = some p)
    (hne : p.userId ≠ uid) :
    requestBooking db uid
        { playgroundId := some pid, date := some date,
          timeStart := some tS, timeEnd := some tE } =
      conflictCheckAndInsert db uid pid date tS tE := by
  have hstep : requestBooking db uid
      { playgroundId := some pid, date := some date,
        timeStart := some tS, timeEnd := some tE } =
      (match findPlayground db pid with
       | some q =>
         if q.userId == uid then Except.error ApiError.selfBookingNotAllowed
         else conflictCheckAndInsert db uid pid date tS tE
       | none => conflictCheckAndInsert db uid pid date tS tE) := rfl
  rw [hstep, hfp]
  simp [beq_eq_false_iff_ne.mpr hne]

theorem requestBooking_reduce_none {db : Db} {uid pid date tS tE : Nat}
    (hfp : findPlayground db pid = none) :
    requestBooking db uid
        { playgroundId := some pid, date := some date,
          timeStart := some tS, timeEnd := some tE } =
      conflictCheckAndInsert db uid pid date tS tE := by
  have hstep : requestBooking db uid
      { playgroundId := some pid, date := some date,
        timeStart := some tS, timeEnd := some tE } =
      (match findPlayground db pid with
       | some q =>
         if q.userId == uid then Except.error ApiError.selfBookingNotAllowed
         else conflictCheckAndInsert db uid pid date tS tE
       | none => conflictCheckAndInsert db uid pid date tS tE) := rfl
  rw [hstep, hfp]

theorem requestBooking_eq_conflictCheck {db : Db} {uid pid date tS tE : Nat}
    (hown : ∀ p ∈ db.playgrounds, p.id = pid → p.userId ≠ uid) :
    requestBooking db uid
        { playgroundId := some pid, date := some date,
          timeStart := some tS, timeEnd := some tE } =
      conflictCheckAndInsert db uid pid date tS tE := by
  cases hfp : findPlayground db pid with
  | none => exact requestBooking_reduce_none hfp
  | some p =>
    obtain ⟨hm, hid⟩ := findPlayground_some hfp
    exact requestBooking_reduce_some hfp (hown p hm hid)

theorem conflictCheckAndInsert_slotConflict_iff (db : Db) (uid pid date tS tE : Nat) :
    (conflictCheckAndInsert db uid pid date tS tE =
        Except.error ApiError.slotConflict) ↔
      0 < (db.bookings.filter (sqlConflictPred pid date tS tE)).length := by
  unfold conflictCheckAndInsert
  split
  · next hc => simp [hc]
  · next hc => split <;> simp [hc]

theorem sqlConflictPred_iff {pid date tS tE : Nat} (hreq : tS < tE)
    {b : Booking} (hb : b.timeStart < b.timeEnd) :
    sqlConflictPred pid date tS tE b = true ↔
      (b.playgroundId = pid ∧ b.date = date ∧
       b.status ≠ BookingStatus.cancelled ∧
       overlaps b.timeStart b.timeEnd tS tE = true) := by
  simp only [sqlConflictPred, Bool.and_eq_true, beq_iff_eq, Bool.not_eq_true',
    beq_eq_false_iff_ne]
  rw [threeClause_eq_overlaps _ _ _ _ hb hreq]
  tauto

theorem stable_of_bookings_eq {db db2 : Db}
    (hnd : (db.bookings.map (fun b => b.id)).Nodup)
    (h : db2.bookings = db.bookings) :
    bookingsStepOk db db2 ∧ confirmedStable db db2 := by
  constructor
  · intro b2 h2
    rw [h] at h2
    exact Or.inl ⟨b2, h2, rfl, statusStep_refl _⟩
  · intro b hb hconf b2 h2 hid
    rw [h] at h2
    rw [eq_of_mem_nodup_ids hnd h2 hb hid]
    exact hconf

theorem stable_of_map_preserve {db db2 : Db}
    (hnd : (db.bookings.map (fun b => b.id)).Nodup)
    (f : Booking → Booking) (hid : ∀ b, (f b).id = b.id)
    (hst : ∀ b, (f b).status = b.status)
    (h : db2.bookings = db.bookings.map f) :
    bookingsStepOk db db2 ∧ confirmedStable db db2 := by
  constructor
  · intro b2 h2
    rw [h] at h2
    rcases List.mem_map.mp h2 with ⟨c, hc, rfl⟩
    exact Or.inl ⟨c, hc, (hid c).symm, by rw [hst c]; exact statusStep_refl _⟩
  · intro b hb hconf b2 h2 hbid
    rw [h] at h2
    rcases List.mem_map.mp h2 with ⟨c, hc, rfl⟩
    rw [hid c] at hbid
    rw [hst c, eq_of_mem_nodup_ids hnd hc hb hbid]
    exact hconf

theorem setStatus_elem_id (bid : Nat) (st : BookingStatus) (b : Booking) :
    (if b.id == bid then { b with status := st } else b).id = b.id := by
  by_cases hb : (b.id == bid) = true <;> simp [hb]

theorem stable_setStatus_confirmed {db db2 : Db}
    (hnd : (db.bookings.map (fun b => b.id)).Nodup) (bid : Nat)
    (h : db2.bookings = setStatus db.bookings bid BookingStatus.confirmed) :
    bookingsStepOk db db2 ∧ confirmedStable db db2 := by
  constructor
  · intro b2 h2
    rw [h] at h2
    rcases List.mem_map.mp h2 with ⟨c, hc, rfl⟩
    by_cases hcc : (c.id == bid) = true
    · exact Or.inl ⟨c, hc, by simp [hcc], by simp [hcc, statusStep_to_confirmed]⟩
    · simp only [hcc]
      exact Or.inl ⟨c, hc, by simp [hcc], by simp [hcc, statusStep_refl]⟩
  · intro b hb hconf b2 h2 hbid
    rw [h] at h2
    rcases List.mem_map.mp h2 with ⟨c, hc, rfl⟩
    by_cases hcc : (c.id == bid) = true
    · simp [hcc]
    · simp only [hcc, if_false, Bool.false_eq_true, ite_false] at hbid ⊢
      rw [eq_of_mem_nodup_ids hnd hc hb hbid]
      exact hconf

theorem stable_setStatus_cancelled {db db2 : Db}
    (hnd : (db.bookings.map (fun b => b.id)).Nodup) {bid : Nat} {bf : Booking}
    (hbf : bf ∈ db.bookings) (hbfid : bf.id = bid)
    (hpend : bf.status = BookingStatus.pending)
    (h : db2.bookings = setStatus db.bookings bid BookingStatus.cancelled) :
    bookingsStepOk db db2 ∧ confirmedStable db db2 := by
  constructor
  · intro b2 h2
    rw [h] at h2
    rcases List.mem_map.mp h2 with ⟨c, hc, rfl⟩
    by_cases hcc : (c.id == bid) = true
    · have hc_eq : c = bf :=
        eq_of_mem_nodup_ids hnd hc hbf (by rw [beq_iff_eq.mp hcc, hbfid])
      refine Or.inl ⟨c, hc, by simp [hcc], ?_⟩
      simp only [hcc, if_true]
      rw [hc_eq, hpend]
      exact Or.inr (Or.inl ⟨rfl, Or.inr rfl⟩)
    · simp only [hcc, Bool.false_eq_true, ite_false]
      exact Or.inl ⟨c, hc, rfl, statusStep_refl _⟩
  · intro b hb hconf b2 h2 hbid
    rw [h] at h2
    rcases List.mem_map.mp h2 with ⟨c, hc, rfl⟩
    by_cases hcc : (c.id == bid) = true
    · exfalso
      have hc_eq : c = bf :=
        eq_of_mem_nodup_ids hnd hc hbf (by rw [beq_iff_eq.mp hcc, hbfid])
      have hid2 : c.id = b.id := by
        simpa [hcc] using hbid
      have : b = bf := by
        rw [← eq_of_mem_nodup_ids hnd hc hb hid2, hc_eq]
      rw [this, hpend] at hconf
      exact absurd hconf (by simp)
    · simp only [hcc, Bool.false_eq_true, ite_false] at hbid ⊢
      rw [eq_of_mem_nodup_ids hnd hc hb hbid]
      exact hconf

theorem stable_append_fresh {db db2 : Db}
    (hnd : (db.bookings.map (fun b => b.id)).Nodup)
    (hfresh : ∀ b ∈ db.bookings, b.id < db.nextBookingId)
    {nb : Booking} (hnb : nb.status = BookingStatus.pending)
    (hnbid : nb.id = db.nextBookingId)
    (h : db2.bookings = db.bookings ++ [nb]) :
    bookingsStepOk db db2 ∧ confirmedStable db db2 := by
  constructor
  · intro b2 h2
    rw [h, List.mem_append] at h2
    rcases h2 with h2 | h2
    · exact Or.inl ⟨b2, h2, rfl, statusStep_refl _⟩
    · rw [List.mem_singleton.mp h2]
      exact Or.inr hnb
  · intro b hb hconf b2 h2 hbid
    rw [h, List.mem_append] at h2
    rcases h2 with h2 | h2
    · rw [eq_of_mem_nodup_ids hnd h2 hb hbid]
      exact hconf
    · exfalso
      rw [List.mem_singleton.mp h2, hnbid] at hbid
      exact absurd (hbid ▸ hfresh b hb) (lt_irrefl _)

theorem inc_reports_id (pid : Nat) (p : Playground) :
    (if p.id == pid then { p with reports := p.reports + 1 } else p).id = p.id := by
  by_cases hp : (p.id == pid) = true <;> simp [hp]

theorem deact_id (pid : Nat) (p : Playground) :
    (if p.id == pid then { p with isActive := false } else p).id = p.id := by
  by_cases hp : (p.id == pid) = true <;> simp [hp]

theorem reportPlayground_dup_iff (db : Db) (uid pid : Nat) (reason : String) :
    (reportPlayground db uid pid reason = Except.error ApiError.duplicateReport) ↔
      (db.reports.any (fun r => r.playgroundId == pid && r.userId == uid)) = true := by
  unfold reportPlayground
  split
  · next hdup => simp [hdup]
  · next hdup =>
    split
    · simp [hdup]
    · simp only []
      split
      · simp [hdup]
      · split <;> simp [hdup]

theorem reportPlayground_success {db : Db} {uid pid : Nat} {reason : String}
    {p : Playground} (hfp : findPlayground db pid = some p)
    (hdup : (db.reports.any (fun r => r.playgroundId == pid && r.userId == uid)) = false) :
    reportPlayground db uid pid reason = Except.ok
      { db with
        reports := db.reports ++ [{ playgroundId := pid, userId := uid, reason := reason }],
        playgrounds :=
          if 5 ≤ p.reports + 1 then
            (db.playgrounds.map
              (fun q => if q.id == pid then { q with reports := q.reports + 1 } else q)).map
              (fun q => if q.id == pid then { q with isActive := false } else q)
          else
            db.playgrounds.map
              (fun q => if q.id == pid then { q with reports := q.reports + 1 } else q) } := by
  have hpe : p.id = pid := (findPlayground_some hfp).2
  have hfind : (db.playgrounds.map
      (fun q => if q.id == pid then { q with reports := q.reports + 1 } else q)).find?
        (fun q => q.id == pid) = some { p with reports := p.reports + 1 } := by
    rw [find?_map_eqId _ (inc_reports_id pid) _ pid]
    rw [show db.playgrounds.find? (fun q => q.id == pid) = some p from hfp]
    simp [hpe]
  unfold reportPlayground
  simp only [hdup, Bool.false_eq_true, if_false]
  rw [hfp]
  simp only []
  rw [hfind]

/-! ### Claim theorems -/

/-- C2: for all intervals with start < end on both sides, the
three-clause disjunction evaluated by the booking conflict query is
logically equivalent to the single half-open test
`a.start < b.end AND b.start < a.end`. -/
theorem threeClause_equiv_singleTest (aS aE bS bE : Nat)
    (ha : aS < aE) (hb : bS < bE) :
    threeClauseConflict aS aE bS bE = overlaps aS aE bS bE :=
  threeClause_eq_overlaps aS aE bS bE ha hb

/-- Witness for C2 at the concrete intervals 09:00-10:00 and 09:30-10:30. -/
theorem threeClause_equiv_singleTest_witness :
    (900 : Nat) < 1000 ∧ (930 : Nat) < 1030 ∧
    threeClauseConflict 900 1000 930 1030 = overlaps 900 1000 930 1030 :=
  ⟨by decide, by decide,
   threeClause_equiv_singleTest 900 1000 930 1030 (by decide) (by decide)⟩

/-- C1: for a field-complete request by a non-owner, with all stored and
requested intervals well-formed, the request fails with `SlotConflict`
iff some existing booking on the same venue and date with status other
than cancelled overlaps the requested interval under the half-open rule;
on success a `pending` booking is created.  In particular a request for
(09:00, 10:00) is rejected against an existing (09:30, 10:30) and
succeeds against an existing (10:00, 11:00). -/
theorem slotConflict_iff_halfOpen_overlap :
    (∀ (db : Db) (uid pid date tS tE : Nat),
      (∀ b ∈ db.bookings, b.timeStart < b.timeEnd) → tS < tE →
      (∀ p ∈ db.playgrounds, p.id = pid → p.userId ≠ uid) →
      ((requestBooking db uid
          { playgroundId := some pid, date := some date,
            timeStart := some tS, timeEnd := some tE } =
          Except.error ApiError.slotConflict) ↔
        ∃ b ∈ db.bookings, b.playgroundId = pid ∧ b.date = date ∧
          b.status ≠ BookingStatus.cancelled ∧
          overlaps b.timeStart b.timeEnd tS tE = true) ∧
      (∀ db2 nb,
        requestBooking db uid
            { playgroundId := some pid, date := some date,
              timeStart := some tS, timeEnd := some tE } =
          Except.ok (db2, nb) →
        nb.status = BookingStatus.pending ∧ nb ∈ db2.bookings)) ∧
    requestBooking dbC1a 2 rqC1 = Except.error ApiError.slotConflict ∧
    requestBooking dbC1b 2 rqC1 =
      Except.ok
        ({ playgrounds := [pgA],
           bookings := [mkBooking 1 1 3 7 1000 1100, mkBooking 2 1 2 7 900 1000],
           reports := [], nextBookingId := 3 },
         mkBooking 2 1 2 7 900 1000) := by
  refine ⟨?_, rfl, rfl⟩
  intro db uid pid date tS tE hwf hreq hown
  rw [requestBooking_eq_conflictCheck hown]
  constructor
  · rw [conflictCheckAndInsert_slotConflict_iff, length_filter_pos_iff]
    constructor
    · rintro ⟨b, hb, hpred⟩
      exact ⟨b, hb, (sqlConflictPred_iff hreq (hwf b hb)).mp hpred⟩
    · rintro ⟨b, hb, hprop⟩
      exact ⟨b, hb, (sqlConflictPred_iff hreq (hwf b hb)).mpr hprop⟩
  · intro db2 nb hok
    obtain ⟨hdb2, hst⟩ := conflictCheckAndInsert_ok hok
    refine ⟨by rw [hst]; rfl, ?_⟩
    rw [hdb2]
    simp

/-- Witness for C1 at the concrete conflicting state `dbC1a`. -/
theorem slotConflict_iff_halfOpen_overlap_witness :
    ((∀ b ∈ dbC1a.bookings, b.timeStart < b.timeEnd) ∧ (900 : Nat) < 1000 ∧
      (∀ p ∈ dbC1a.playgrounds, p.id = 1 → p.userId ≠ 2)) ∧
    ((requestBooking dbC1a 2
        { playgroundId := some 1, date := some 7,
          timeStart := some 900, timeEnd := some 1000 } =
        Except.error ApiError.slotConflict) ↔
      ∃ b ∈ dbC1a.bookings, b.playgroundId = 1 ∧ b.date = 7 ∧
        b.status ≠ BookingStatus.cancelled ∧
        overlaps b.timeStart b.timeEnd 900 1000 = true) :=
  ⟨⟨by decide, by decide, by decide⟩,
   (slotConflict_iff_halfOpen_overlap.1 dbC1a 2 1 7 900 1000
     (by decide) (by decide) (by decide)).1⟩

/-- C3 counterexample: the request `rqC3` has start 10:00 ≥ end 09:00
and targets the deactivated (but existing) playground of `dbC3`, yet
`requestBooking` succeeds and creates a pending booking instead of
failing with `ValidationError`. -/
theorem requestBooking_no_validation_cx :
    pgInactive.isActive = false ∧
    rqC3.timeStart = some 1000 ∧ rqC3.timeEnd = some 900 ∧
    requestBooking dbC3 1 rqC3 =
      Except.ok
        ({ playgrounds := [pgInactive],
           bookings := [mkBooking 1 1 1 7 1000 900],
           reports := [], nextBookingId := 2 },
         mkBooking 1 1 1 7 1000 900) :=
  ⟨by decide, by decide, by decide, rfl⟩

/-- C3 amended: `requestBooking` fails with `ValidationError` exactly on
a missing field; it checks neither `start < end` nor the venue's active
flag, so a field-complete, conflict-free request by a non-owner against
an EXISTING venue always creates a pending booking — even with
start ≥ end or a deactivated venue — while a nonexistent venue fails
only at the INSERT's foreign key (storage error), not gracefully. -/
theorem requestBooking_amended :
    (∀ (db : Db) (uid : Nat) (body : BookingBody),
      (body.playgroundId = none ∨ body.date = none ∨ body.timeStart = none ∨
        body.timeEnd = none) →
      requestBooking db uid body = Except.error ApiError.validationError) ∧
    (∀ (db : Db) (uid pid date tS tE : Nat) (p : Playground),
      findPlayground db pid = some p → p.userId ≠ uid →
      db.bookings.filter (sqlConflictPred pid date tS tE) = [] →
      requestBooking db uid
          { playgroundId := some pid, date := some date,
            timeStart := some tS, timeEnd := some tE } =
        Except.ok
          ({ db with
             bookings := db.bookings ++ [mkBooking db.nextBookingId pid uid date tS tE],
             nextBookingId := db.nextBookingId + 1 },
           mkBooking db.nextBookingId pid uid date tS tE)) ∧
    (∀ (db : Db) (uid pid date tS tE : Nat),
      findPlayground db pid = none →
      db.bookings.filter (sqlConflictPred pid date tS tE) = [] →
      requestBooking db uid
          { playgroundId := some pid, date := some date,
            timeStart := some tS, timeEnd := some tE } =
        Except.error ApiError.storageError) := by
  refine ⟨?_, ?_, ?_⟩
  · rintro db uid ⟨op, od, os, oe⟩ h
    rcases h with rfl | rfl | rfl | rfl
    · rfl
    · cases op <;> rfl
    · cases op <;> cases od <;> rfl
    · cases op <;> cases od <;> cases os <;> rfl
  · intro db uid pid date tS tE p hfp hne hfil
    rw [requestBooking_reduce_some hfp hne]
    unfold conflictCheckAndInsert
    rw [hfil]
    simp [hfp]
  · intro db uid pid date tS tE hfp hfil
    rw [requestBooking_reduce_none hfp]
    unfold conflictCheckAndInsert
    rw [hfil]
    simp [hfp]

/-- Witness for the amended C3: the malformed (start ≥ end), deactivated
request of `dbC3` goes through. -/
theorem requestBooking_amended_witness :
    (findPlayground dbC3 1 = some pgInactive ∧ pgInactive.userId ≠ 1 ∧
      dbC3.bookings.filter (sqlConflictPred 1 7 1000 900) = []) ∧
    requestBooking dbC3 1
        { playgroundId := some 1, date := some 7,
          timeStart := some 1000, timeEnd := some 900 } =
      Except.ok
        ({ dbC3 with
           bookings := dbC3.bookings ++ [mkBooking dbC3.nextBookingId 1 1 7 1000 900],
           nextBookingId := dbC3.nextBookingId + 1 },
         mkBooking dbC3.nextBookingId 1 1 7 1000 900) :=
  ⟨⟨by decide, by decide, by decide⟩,
   requestBooking_amended.2.1 dbC3 1 1 7 1000 900 pgInactive
     (by decide) (by decide) (by decide)⟩

/-- C4 counterexample: confirming the cancelled booking of `dbC4` (as
the venue owner, user 10) flips its status from `cancelled` to
`confirmed` — the confirm route has no status guard, so `cancelled` is
not terminal as the claim requires. -/
theorem cancelled_to_confirmed_cx :
    (dbC4.bookings.map (fun b => b.status)) = [BookingStatus.cancelled] ∧
    ((dbAfter (confirmBooking dbC4 10 1) dbC4).bookings.map (fun b => b.status)) =
      [BookingStatus.confirmed] :=
  ⟨by decide, by decide⟩

/-- C4 amended: under unique booking ids and a fresh insert counter, all
six operations move each booking's status only along `statusStep`
(unchanged, pending→confirmed, pending→cancelled, or — via the
unguarded confirm — cancelled→confirmed), new bookings enter as
`pending`, and a `confirmed` booking never changes status. -/
theorem status_transitions_amended (db : Db)
    (hnd : (db.bookings.map (fun b => b.id)).Nodup)
    (hfresh : ∀ b ∈ db.bookings, b.id < db.nextBookingId) :
    (∀ (uid : Nat) (body : BookingBody),
      bookingsStepOk db (dbAfterReq (requestBooking db uid body) db) ∧
      confirmedStable db (dbAfterReq (requestBooking db uid body) db)) ∧
    (∀ uid bid : Nat,
      bookingsStepOk db (dbAfter (cancelBooking db uid bid) db) ∧
      confirmedStable db (dbAfter (cancelBooking db uid bid) db)) ∧
    (∀ uid bid : Nat,
      bookingsStepOk db (dbAfter (confirmBooking db uid bid) db) ∧
      confirmedStable db (dbAfter (confirmBooking db uid bid) db)) ∧
    (∀ (urlId bid : Nat) (r : Int),
      bookingsStepOk db (bookingsRatingRoute db urlId bid r) ∧
      confirmedStable db (bookingsRatingRoute db urlId bid r)) ∧
    (∀ (urlId bid : Nat) (r : Int),
      bookingsStepOk db (playgroundsRatingRoute db urlId bid r) ∧
      confirmedStable db (playgroundsRatingRoute db urlId bid r)) ∧
    (∀ (uid pid : Nat) (reason : String),
      bookingsStepOk db (dbAfter (reportPlayground db uid pid reason) db) ∧
      confirmedStable db (dbAfter (reportPlayground db uid pid reason) db)) := by
  refine ⟨?_, ?_, ?_, ?_, ?_, ?_⟩
  · intro uid body
    cases hr : requestBooking db uid body with
    | error e => exact stable_of_bookings_eq hnd (by simp [dbAfterReq])
    | ok x =>
      obtain ⟨db2, nb⟩ := x
      obtain ⟨hdb2, hst, hid⟩ := requestBooking_ok hr
      exact stable_append_fresh hnd hfresh hst hid (by simp [dbAfterReq, hdb2])
  · intro uid bid
    cases hr : cancelBooking db uid bid with
    | error e => exact stable_of_bookings_eq hnd (by simp [dbAfter])
    | ok db2 =>
      obtain ⟨hdb2, b, hb, hbid, _, hpend⟩ := cancelBooking_ok hr
      exact stable_setStatus_cancelled hnd hb hbid hpend (by simp [dbAfter, hdb2])
  · intro uid bid
    cases hr : confirmBooking db uid bid with
    | error e => exact stable_of_bookings_eq hnd (by simp [dbAfter])
    | ok db2 =>
      have hdb2 := confirmBooking_ok hr
      exact stable_setStatus_confirmed hnd bid (by simp [dbAfter, hdb2])
  · intro urlId bid r
    refine stable_of_map_preserve hnd
      (fun b => if b.id == bid then { b with rated := true, rating := some r } else b)
      ?_ ?_ rfl
    · intro b; by_cases hb : (b.id == bid) = true <;> simp [hb]
    · intro b; by_cases hb : (b.id == bid) = true <;> simp [hb]
  · intro urlId bid r
    refine stable_of_map_preserve hnd
      (fun b => if b.id == bid then { b with rated := true, rating := some r } else b)
      ?_ ?_ rfl
    · intro b; by_cases hb : (b.id == bid) = true <;> simp [hb]
    · intro b; by_cases hb : (b.id == bid) = true <;> simp [hb]
  · intro uid pid reason
    cases hr : reportPlayground db uid pid reason with
    | error e => exact stable_of_bookings_eq hnd (by simp [dbAfter])
    | ok db2 =>
      obtain ⟨hbk, _⟩ := reportPlayground_ok hr
      exact stable_of_bookings_eq hnd (by simp [dbAfter, hbk])

/-- Witness for the amended C4 at the concrete state `dbC6`. -/
theorem status_transitions_amended_witness :
    ((dbC6.bookings.map (fun b => b.id)).Nodup ∧
      (∀ b ∈ dbC6.bookings, b.id < dbC6.nextBookingId)) ∧
    (bookingsStepOk dbC6 (dbAfter (confirmBooking dbC6 10 1) dbC6) ∧
      confirmedStable dbC6 (dbAfter (confirmBooking dbC6 10 1) dbC6)) :=
  ⟨⟨by decide, by decide⟩,
   (status_transitions_amended dbC6 (by decide) (by decide)).2.2.1 10 1⟩

/-- C5 counterexample: `dbC5` has no booking at all, yet confirm answers
`Unauthorized` (403), not the `NotFound` the claim requires. -/
theorem confirm_absent_unauthorized_cx :
    dbC5.bookings = [] ∧
    confirmBooking dbC5 7 99 = Except.error ApiError.unauthorized ∧
    ApiError.unauthorized ≠ ApiError.notFound :=
  ⟨by decide, rfl, by decide⟩

/-- C5 amended: confirm answers `Unauthorized` both when the booking is
absent (or its playground is absent, emptying the JOIN) and when the
caller does not own the venue; when the caller is the owner it sets the
status to `confirmed` with no guard on the current status. -/
theorem confirm_amended :
    ∀ (db : Db) (uid bid : Nat),
      (db.bookings.find? (fun b => b.id == bid) = none →
        confirmBooking db uid bid = Except.error ApiError.unauthorized) ∧
      (∀ b, db.bookings.find? (fun c => c.id == bid) = some b →
        (findPlayground db b.playgroundId = none →
          confirmBooking db uid bid = Except.error ApiError.unauthorized) ∧
        (∀ p, findPlayground db b.playgroundId = some p →
          (p.userId ≠ uid →
            confirmBooking db uid bid = Except.error ApiError.unauthorized) ∧
          (p.userId = uid →
            confirmBooking db uid bid =
              Except.ok { db with
                bookings := setStatus db.bookings bid BookingStatus.confirmed }))) := by
  intro db uid bid
  constructor
  · intro hf
    unfold confirmBooking
    rw [hf]
  · intro b hf
    constructor
    · intro hp
      unfold confirmBooking
      rw [hf]
      dsimp only
      rw [hp]
    · intro p hp
      constructor
      · intro hne
        unfold confirmBooking
        rw [hf]
        dsimp only
        rw [hp]
        simp [beq_eq_false_iff_ne.mpr hne]
      · intro heq
        unfold confirmBooking
        rw [hf]
        dsimp only
        rw [hp]
        simp [heq]

/-- Witness for the amended C5: the owner confirms the already-cancelled
booking of `dbC4`. -/
theorem confirm_amended_witness :
    (dbC4.bookings.find? (fun c => c.id == 1) =
        some { mkBooking 1 1 3 7 900 1000 with status := BookingStatus.cancelled } ∧
      findPlayground dbC4 1 = some pgA ∧ pgA.userId = 10) ∧
    confirmBooking dbC4 10 1 =
      Except.ok { dbC4 with
        bookings := setStatus dbC4.bookings 1 BookingStatus.confirmed } :=
  ⟨⟨by decide, by decide, by decide⟩,
   (((confirm_amended dbC4 10 1).2
       { mkBooking 1 1 3 7 900 1000 with status := BookingStatus.cancelled }
       (by decide)).2 pgA (by decide)).2 (by decide)⟩

/-- C6 counterexample: booking 1 of `dbC6` belongs to user 3; a cancel
attempt by user 2 answers `NotFound` (the lookup joins on the caller's
id), not the `Unauthorized` the claim requires. -/
theorem cancel_wrong_user_notFound_cx :
    (dbC6.bookings.map (fun b => (b.id, b.userId))) = [(1, 3)] ∧
    cancelBooking dbC6 2 1 = Except.error ApiError.notFound ∧
    ApiError.notFound ≠ ApiError.unauthorized :=
  ⟨by decide, rfl, by decide⟩

/-- C6 amended: cancel answers `NotFound` whenever no booking matches
`(id, requester)` — covering both a nonexistent booking and a booking of
another requester — `InvalidState` when the matched booking is not
`pending` (hence a second cancel fails with `InvalidState`), and
otherwise transitions the booking to `cancelled`. -/
theorem cancel_amended :
    (∀ (db : Db) (uid bid : Nat),
      (db.bookings.find? (fun b => b.id == bid && b.userId == uid) = none →
        cancelBooking db uid bid = Except.error ApiError.notFound) ∧
      (∀ b, db.bookings.find? (fun c => c.id == bid && c.userId == uid) = some b →
        (b.status ≠ BookingStatus.pending →
          cancelBooking db uid bid = Except.error ApiError.invalidState) ∧
        (b.status = BookingStatus.pending →
          cancelBooking db uid bid =
            Except.ok { db with
              bookings := setStatus db.bookings bid BookingStatus.cancelled }))) ∧
    cancelBooking (dbAfter (cancelBooking dbC6 3 1) dbC6) 3 1 =
      Except.error ApiError.invalidState := by
  refine ⟨?_, rfl⟩
  intro db uid bid
  constructor
  · intro hf
    unfold cancelBooking
    rw [hf]
  · intro b hf
    constructor
    · intro hne
      unfold cancelBooking
      rw [hf]
      simp [beq_eq_false_iff_ne.mpr hne]
    · intro heq
      unfold cancelBooking
      rw [hf]
      simp [heq]

/-- Witness for the amended C6: user 3 cancels their pending booking. -/
theorem cancel_amended_witness :
    (dbC6.bookings.find? (fun c => c.id == 1 && c.userId == 3) =
        some (mkBooking 1 1 3 7 900 1000) ∧
      (mkBooking 1 1 3 7 900 1000).status = BookingStatus.pending) ∧
    cancelBooking dbC6 3 1 =
      Except.ok { dbC6 with
        bookings := setStatus dbC6.bookings 1 BookingStatus.cancelled } :=
  ⟨⟨by decide, by decide⟩,
   ((cancel_amended.1 dbC6 3 1).2 (mkBooking 1 1 3 7 900 1000)
     (by decide)).2 (by decide)⟩

/-- C7 counterexample: booking 1 of `dbC7` is already rated (rating 5),
and 7 is outside [1,5], yet the rating route succeeds and overwrites the
stored rating — no precondition of the claim is enforced. -/
theorem rateBooking_no_precondition_cx :
    bkRated.rated = true ∧ bkRated.rating = some 5 ∧
    ¬(1 ≤ (7 : Int) ∧ (7 : Int) ≤ 5) ∧
    ((bookingsRatingRoute dbC7 1 1 7).bookings.map (fun b => (b.rated, b.rating))) =
      [(true, some 7)] :=
  ⟨by decide, by decide, by decide, by decide⟩

/-- C7 amended: the rating route checks nothing — for every rating value
(in range or not), every caller, and every prior `rated` state, it
unconditionally sets the body-named booking's `rated` flag to true and
its `rating` to the given value, overwriting any earlier rating, and
leaves every other booking unchanged. -/
theorem rateBooking_amended :
    (∀ (db : Db) (urlId bid : Nat) (r : Int) (b : Booking),
      b ∈ db.bookings → b.id = bid →
      { b with rated := true, rating := some r } ∈
        (bookingsRatingRoute db urlId bid r).bookings) ∧
    (∀ (db : Db) (urlId bid : Nat) (r : Int) (b : Booking),
      b ∈ db.bookings → b.id ≠ bid →
      b ∈ (bookingsRatingRoute db urlId bid r).bookings) := by
  constructor
  · intro db urlId bid r b hb hid
    have h2 := List.mem_map_of_mem
      (fun c => if c.id == bid then { c with rated := true, rating := some r } else c) hb
    have hbk : (bookingsRatingRoute db urlId bid r).bookings =
        db.bookings.map
          (fun c => if c.id == bid then { c with rated := true, rating := some r } else c) :=
      rfl
    rw [hbk]
    simpa [hid] using h2
  · intro db urlId bid r b hb hid
    have h2 := List.mem_map_of_mem
      (fun c => if c.id == bid then { c with rated := true, rating := some r } else c) hb
    have hbk : (bookingsRatingRoute db urlId bid r).bookings =
        db.bookings.map
          (fun c => if c.id == bid then { c with rated := true, rating := some r } else c) :=
      rfl
    rw [hbk]
    simpa [beq_eq_false_iff_ne.mpr hid] using h2

/-- Witness for the amended C7: the already-rated booking of `dbC7` is
overwritten with the out-of-range rating 7. -/
theorem rateBooking_amended_witness :
    (bkRated ∈ dbC7.bookings ∧ bkRated.id = 1) ∧
    { bkRated with rated := true, rating := some (7 : Int) } ∈
      (bookingsRatingRoute dbC7 1 1 7).bookings :=
  ⟨⟨by decide, by decide⟩,
   rateBooking_amended.1 dbC7 1 1 7 bkRated (by decide) (by decide)⟩

/-- C8 counterexample: in `dbC8` (one booking rated 5, one unrated) the
playgrounds-router rating endpoint rates the second booking with 3, but
stores 5 on the venue — the average computed BEFORE the booking update —
while the mean over its rated bookings after the call is 4. -/
theorem playgroundsRating_stale_average_cx :
    ((playgroundsRatingRoute dbC8 1 2 3).playgrounds.map (fun p => p.rating)) = [5] ∧
    avgRating (playgroundsRatingRoute dbC8 1 2 3).bookings 1 = 4 ∧
    ((5 : Rat) ≠ 4) := by
  have hpre : ratedRatings dbC8.bookings 1 = [5] := by decide
  have hpost : ratedRatings (playgroundsRatingRoute dbC8 1 2 3).bookings 1 = [5, 3] := by
    decide
  have hv : avgRating dbC8.bookings 1 = 5 := by
    simp only [avgRating]
    rw [hpre]
    norm_num
  refine ⟨?_, ?_, by norm_num⟩
  · have hl : (playgroundsRatingRoute dbC8 1 2 3).playgrounds.map (fun p => p.rating) =
        [avgRating dbC8.bookings 1] := rfl
    rw [hl, hv]
  · simp only [avgRating]
    rw [hpost]
    norm_num

/-- C8 amended: the bookings-router endpoint stores on the URL-named
venue the average over the POST-update bookings (so it includes the
rating just set when that booking belongs to the venue — e.g. {5, 3}
yields 4.0), while the playgrounds-router endpoint stores the average
over the PRE-update bookings, excluding the rating just set; the empty
set of rated bookings averages to 0. -/
theorem rating_average_amended :
    (∀ (db : Db) (urlId bid : Nat) (r : Int) (p : Playground),
      p ∈ db.playgrounds → p.id = urlId →
      { p with rating := avgRating (setBookingRating db.bookings bid r) urlId } ∈
        (bookingsRatingRoute db urlId bid r).playgrounds) ∧
    (∀ (db : Db) (urlId bid : Nat) (r : Int) (p : Playground),
      p ∈ db.playgrounds → p.id = urlId →
      { p with rating := avgRating db.bookings urlId } ∈
        (playgroundsRatingRoute db urlId bid r).playgrounds) ∧
    avgRating (bookingsRatingRoute dbC8 1 2 3).bookings 1 = 4 ∧
    ((bookingsRatingRoute dbC8 1 2 3).playgrounds.map (fun p => p.rating)) = [4] ∧
    avgRating [] 1 = 0 := by
  have hpost : ratedRatings (setBookingRating dbC8.bookings 2 3) 1 = [5, 3] := by decide
  have hv : avgRating (setBookingRating dbC8.bookings 2 3) 1 = 4 := by
    simp only [avgRating]
    rw [hpost]
    norm_num
  refine ⟨?_, ?_, ?_, ?_, by norm_num [avgRating, ratedRatings]⟩
  case refine_3 =>
    have hb : (bookingsRatingRoute dbC8 1 2 3).bookings = setBookingRating dbC8.bookings 2 3 :=
      rfl
    rw [hb]
    exact hv
  case refine_4 =>
    have hl : (bookingsRatingRoute dbC8 1 2 3).playgrounds.map (fun p => p.rating) =
        [avgRating (setBookingRating dbC8.bookings 2 3) 1] := rfl
    rw [hl, hv]
  · intro db urlId bid r p hp hid
    have h2 := List.mem_map_of_mem
      (fun q => if q.id == urlId then
        { q with rating := avgRating (setBookingRating db.bookings bid r) urlId }
      else q) hp
    have hpg : (bookingsRatingRoute db urlId bid r).playgrounds =
        db.playgrounds.map
          (fun q => if q.id == urlId then
            { q with rating := avgRating (setBookingRating db.bookings bid r) urlId }
          else q) := rfl
    rw [hpg]
    simpa [hid] using h2
  · intro db urlId bid r p hp hid
    have h2 := List.mem_map_of_mem
      (fun q => if q.id == urlId then
        { q with rating := avgRating db.bookings urlId } else q) hp
    have hpg : (playgroundsRatingRoute db urlId bid r).playgrounds =
        db.playgrounds.map
          (fun q => if q.id == urlId then
            { q with rating := avgRating db.bookings urlId } else q) := rfl
    rw [hpg]
    simpa [hid] using h2

/-- Witness for the amended C8 on the {5, 3} state `dbC8`. -/
theorem rating_average_amended_witness :
    (pgA ∈ dbC8.playgrounds ∧ pgA.id = 1) ∧
    { pgA with rating := avgRating (setBookingRating dbC8.bookings 2 3) 1 } ∈
      (bookingsRatingRoute dbC8 1 2 3).playgrounds :=
  ⟨⟨by decide, by decide⟩,
   rating_average_amended.1 dbC8 1 2 3 pgA (by decide) (by decide)⟩

/-- C10: the bookings-router rating route writes only the body-named
booking and only the URL-named venue's rating: every other playground
and booking row passes through unchanged, and in the concrete mismatch
state `dbC10` — where booking 1 belongs to playground 2 but the URL
names playground 1 — the booking's rating changes to 4 while playground
2 keeps its stored rating 3 (only playground 1, whose rated-booking set
is empty, is rewritten, to 0). -/
theorem rating_frame_effect :
    (∀ (db : Db) (urlId bid : Nat) (r : Int) (p : Playground),
      p ∈ db.playgrounds → p.id ≠ urlId →
      p ∈ (bookingsRatingRoute db urlId bid r).playgrounds) ∧
    (∀ (db : Db) (urlId bid : Nat) (r : Int) (b : Booking),
      b ∈ db.bookings → b.id ≠ bid →
      b ∈ (bookingsRatingRoute db urlId bid r).bookings) ∧
    ((bookingsRatingRoute dbC10 1 1 4).bookings.map (fun b => (b.playgroundId, b.rating))) =
      [(2, some 4)] ∧
    ((bookingsRatingRoute dbC10 1 1 4).playgrounds.map (fun p => (p.id, p.rating))) =
      [(1, 0), (2, 3)] ∧
    pgB.rating = 3 := by
  refine ⟨?_, ?_, by decide, by decide, by decide⟩
  · intro db urlId bid r p hp hne
    have h2 := List.mem_map_of_mem
      (fun q => if q.id == urlId then
        { q with rating := avgRating (setBookingRating db.bookings bid r) urlId }
      else q) hp
    have hpg : (bookingsRatingRoute db urlId bid r).playgrounds =
        db.playgrounds.map
          (fun q => if q.id == urlId then
            { q with rating := avgRating (setBookingRating db.bookings bid r) urlId }
          else q) := rfl
    rw [hpg]
    simpa [beq_eq_false_iff_ne.mpr hne] using h2
  · intro db urlId bid r b hb hne
    have h2 := List.mem_map_of_mem
      (fun c => if c.id == bid then { c with rated := true, rating := some r } else c) hb
    have hbk : (bookingsRatingRoute db urlId bid r).bookings =
        db.bookings.map
          (fun c => if c.id == bid then { c with rated := true, rating := some r } else c) :=
      rfl
    rw [hbk]
    simpa [beq_eq_false_iff_ne.mpr hne] using h2

/-- Witness for C10: playground 2 of `dbC10` passes through unchanged
although its booking was the one rated. -/
theorem rating_frame_effect_witness :
    (pgB ∈ dbC10.playgrounds ∧ pgB.id ≠ 1) ∧
    pgB ∈ (bookingsRatingRoute dbC10 1 1 4).playgrounds :=
  ⟨⟨by decide, by decide⟩,
   rating_frame_effect.1 dbC10 1 1 4 pgB (by decide) (by decide)⟩

/-- C9: reporting fails with `DuplicateReport` exactly when the reporter
already reported the venue; otherwise (venue present) the report is
persisted, `reports` grows by exactly 1, and `isActive` is set to false
precisely when the post-increment count reaches 5; and no core operation
ever turns an inactive playground active again. -/
theorem reportVenue_threshold :
    ∀ (db : Db) (uid pid : Nat) (reason : String),
      ((reportPlayground db uid pid reason = Except.error ApiError.duplicateReport) ↔
        ∃ r0 ∈ db.reports, r0.playgroundId = pid ∧ r0.userId = uid) ∧
      (∀ p, findPlayground db pid = some p →
        (db.reports.any (fun r0 => r0.playgroundId == pid && r0.userId == uid)) = false →
        ∃ db2, reportPlayground db uid pid reason = Except.ok db2 ∧
          db2.reports = db.reports ++
            [{ playgroundId := pid, userId := uid, reason := reason }] ∧
          findPlayground db2 pid = some
            { p with reports := p.reports + 1
                     isActive := if 5 ≤ p.reports + 1 then false else p.isActive }) ∧
      preservesInactive db (dbAfter (reportPlayground db uid pid reason) db) ∧
      (∀ body : BookingBody,
        preservesInactive db (dbAfterReq (requestBooking db uid body) db)) ∧
      (∀ bid : Nat, preservesInactive db (dbAfter (cancelBooking db uid bid) db)) ∧
      (∀ bid : Nat, preservesInactive db (dbAfter (confirmBooking db uid bid) db)) ∧
      (∀ (bid : Nat) (r : Int), preservesInactive db (bookingsRatingRoute db pid bid r)) ∧
      (∀ (bid : Nat) (r : Int), preservesInactive db (playgroundsRatingRoute db pid bid r)) := by
  intro db uid pid reason
  refine ⟨?_, ?_, ?_, ?_, ?_, ?_, ?_, ?_⟩
  · rw [reportPlayground_dup_iff, List.any_eq_true]
    simp only [Bool.and_eq_true, beq_iff_eq]
  · intro p hfp hdup
    have hpe : p.id = pid := (findPlayground_some hfp).2
    have hA : (db.playgrounds.map
        (fun q => if q.id == pid then { q with reports := q.reports + 1 } else q)).find?
          (fun q => q.id == pid) = some { p with reports := p.reports + 1 } := by
      rw [find?_map_eqId _ (inc_reports_id pid) _ pid,
        show db.playgrounds.find? (fun q => q.id == pid) = some p from hfp]
      simp [hpe]
    refine ⟨_, reportPlayground_success hfp hdup, rfl, ?_⟩
    unfold findPlayground
    dsimp only
    by_cases h5 : 5 ≤ p.reports + 1
    · rw [if_pos h5, find?_map_eqId _ (deact_id pid) _ pid, hA]
      simp [hpe, h5]
    · rw [if_neg h5, hA]
      simp [h5]
  · cases hr : reportPlayground db uid pid reason with
    | error e => exact preservesInactive_of_eq db _ (by simp [dbAfter])
    | ok db2 =>
      obtain ⟨hbk, f, hpg, hfid, hfact⟩ := reportPlayground_ok hr
      refine preservesInactive_of_map db
        (fun q => f (if q.id == pid then { q with reports := q.reports + 1 } else q))
        ?_ ?_ _ ?_
      · intro q
        rw [hfid]
        exact inc_reports_id pid q
      · intro q h
        have h2 := hfact _ h
        by_cases hq : (q.id == pid) = true
        · simpa [hq] using h2
        · simpa [hq] using h2
      · simp only [dbAfter]
        rw [hpg, List.map_map]
        rfl
  · intro body
    cases hr : requestBooking db uid body with
    | error e => exact preservesInactive_of_eq db _ (by simp [dbAfterReq])
    | ok x =>
      obtain ⟨db2, nb⟩ := x
      obtain ⟨hdb2, _, _⟩ := requestBooking_ok hr
      exact preservesInactive_of_eq db _ (by simp [dbAfterReq, hdb2])
  · intro bid
    cases hr : cancelBooking db uid bid with
    | error e => exact preservesInactive_of_eq db _ (by simp [dbAfter])
    | ok db2 =>
      obtain ⟨hdb2, _⟩ := cancelBooking_ok hr
      exact preservesInactive_of_eq db _ (by simp [dbAfter, hdb2])
  · intro bid
    cases hr : confirmBooking db uid bid with
    | error e => exact preservesInactive_of_eq db _ (by simp [dbAfter])
    | ok db2 =>
      have hdb2 := confirmBooking_ok hr
      exact preservesInactive_of_eq db _ (by simp [dbAfter, hdb2])
  · intro bid r
    refine preservesInactive_of_map db
      (fun q => if q.id == pid then
        { q with rating := avgRating (setBookingRating db.bookings bid r) pid } else q)
      ?_ ?_ _ rfl
    · intro q
      by_cases hq : (q.id == pid) = true <;> simp [hq]
    · intro q h
      by_cases hq : (q.id == pid) = true
      · simpa [hq] using h
      · simpa [hq] using h
  · intro bid r
    refine preservesInactive_of_map db
      (fun q => if q.id == pid then
        { q with rating := avgRating db.bookings pid } else q)
      ?_ ?_ _ rfl
    · intro q
      by_cases hq : (q.id == pid) = true <;> simp [hq]
    · intro q h
      by_cases hq : (q.id == pid) = true
      · simpa [hq] using h
      · simpa [hq] using h

/-- Witness for C9: user 21 files the fifth report against the venue of
`dbC9` (already at 4 reports), which increments the count to 5 and
deactivates it. -/
theorem reportVenue_threshold_witness :
    (findPlayground dbC9 1 = some { pgA with reports := 4 } ∧
      (dbC9.reports.any (fun r0 => r0.playgroundId == 1 && r0.userId == 21)) = false) ∧
    (∃ db2, reportPlayground dbC9 21 1 "bad" = Except.ok db2 ∧
      db2.reports = dbC9.reports ++ [{ playgroundId := 1, userId := 21, reason := "bad" }] ∧
      findPlayground db2 1 = some
        { id := 1, userId := 10, rating := 0, reports := 5, isActive := false }) :=
  ⟨⟨by decide, by decide⟩,
   (reportVenue_threshold dbC9 21 1 "bad").2.1 { pgA with reports := 4 }
     (by decide) (by decide)⟩
